import Mathlib

/-!
Verification of the hex-crawl travel economy, coordinate math, map store and
terrain classifier of this repository, shallowly embedded in Lean 4.

Modelling conventions:
* Python `float` values are modelled as exact rationals (`ℚ`); the travel
  tables contain only small decimal literals, so all comparisons and
  arithmetic used by the embedded code are exact.
* Python `int` counters that are only ever decremented under a positivity
  guard are modelled as `ℕ`.
* The global `random` module is modelled by explicit oracle parameters
  (boolean roll outcomes, or a stream `ℕ → ℚ` with an explicit position for
  the shared PRNG state).
-/

/-- The eight basic terrain tags of `config/constants.py` `TERRAIN_TYPES`. -/
inductive Terrain
  | forest | plains | mountains | water | desert | swamp | tundra | hills
deriving DecidableEq

/-- Travel pace, `config/constants.py` `TRAVEL_PACE` keys. -/
inductive Pace
  | slow | normal | fast
deriving DecidableEq

/-- Transportation modes, `config/constants.py` `TRANSPORTATION_MODES` keys. -/
inductive Transport
  | on_foot | horse | boat | airship
deriving DecidableEq

/-- `TERRAIN_TYPES[t]["movement_cost"]` from `config/constants.py`. -/
def movement_cost : Terrain → ℚ
  | .forest => 3/2
  | .plains => 1
  | .mountains => 3
  | .water => 999
  | .desert => 2
  | .swamp => 3
  | .tundra => 2
  | .hills => 3/2

/-- `TRANSPORTATION_MODES[m]["base_hexes_per_8h"][p]` from `config/constants.py`. -/
def base_hexes_per_8h : Transport → Pace → ℕ
  | .on_foot, .slow => 6
  | .on_foot, .normal => 8
  | .on_foot, .fast => 10
  | .horse, .slow => 9
  | .horse, .normal => 12
  | .horse, .fast => 15
  | .boat, .slow => 8
  | .boat, .normal => 12
  | .boat, .fast => 16
  | .airship, .slow => 12
  | .airship, .normal => 20
  | .airship, .fast => 28

/-- `TRANSPORTATION_MODES[m]["terrain_modifiers"][t]` from `config/constants.py`.
All eight terrains are present in every table, so the Python
`.get(terrain, 1.0)` default is never taken. -/
def terrain_modifiers : Transport → Terrain → ℚ
  | .on_foot, .water => 999
  | .on_foot, _ => 1
  | .horse, .forest => 6/5
  | .horse, .plains => 4/5
  | .horse, .mountains => 3/2
  | .horse, .water => 999
  | .horse, .desert => 11/10
  | .horse, .swamp => 2
  | .horse, .tundra => 6/5
  | .horse, .hills => 9/10
  | .boat, .water => 1/2
  | .boat, .swamp => 2
  | .boat, _ => 999
  | .airship, .forest => 4/5
  | .airship, .plains => 4/5
  | .airship, .mountains => 1
  | .airship, .water => 4/5
  | .airship, .desert => 9/10
  | .airship, .swamp => 4/5
  | .airship, .tundra => 11/10
  | .airship, .hills => 17/20

/-- `TRANSPORTATION_MODES[m]["exhaustion_resistant"]`. -/
def exhaustion_resistant : Transport → Bool
  | .on_foot => false
  | .horse => true
  | .boat => true
  | .airship => true

/-- `TRANSPORTATION_MODES[m]["requires_rest"]`. -/
def requires_rest : Transport → Bool
  | .on_foot => true
  | .horse => true
  | .boat => false
  | .airship => false

/-- The mutable state of `travel/system.py` `TravelSystem`. -/
structure TravelSystem where
  current_pace : Pace
  current_transport : Transport
  hours_traveled : ℚ
  movement_points : ℚ
  max_movement : ℚ
  is_resting : Bool
  exhaustion_level : ℕ
  days_traveled : ℕ
  supplies : ℚ
  mount_exhaustion : ℕ
  has_ranger : Bool
  has_outlander : Bool
  has_navigator : Bool
  favored_terrain : Option Terrain
deriving DecidableEq

/-- The base movement after the navigator bonus of `_update_movement_points`:
the source computes `int(base_movement * 1.1)` on IEEE doubles when a
navigator is present.  For every base value occurring in the catalog
(6, 8, 9, 10, 12, 15, 16, 20, 28) the double `1.1` is slightly above 11/10,
so `int(b * 1.1)` equals `b * 11 / 10` rounded toward zero, i.e. floor
division on naturals. -/
def effective_base (nav : Bool) (t : Transport) (p : Pace) : ℕ :=
  let b := base_hexes_per_8h t p
  if nav then b * 11 / 10 else b

/-- `travel/system.py` `TravelSystem._update_movement_points`.  Note that the
source assigns `self.max_movement = base_movement` *before* computing
`ratio = self.movement_points / (self.max_movement or 1)`, so the ratio is
taken against the new maximum (the `or 1` Python truthiness guard is the
`if … = 0` branch). -/
def update_movement_points (ts : TravelSystem) : TravelSystem :=
  let base : ℚ := (effective_base ts.has_navigator ts.current_transport ts.current_pace : ℕ)
  let ts1 := { ts with max_movement := base }
  if ts1.is_resting then ts1
  else
    { ts1 with movement_points :=
        base * (ts1.movement_points / (if ts1.max_movement = 0 then 1 else ts1.max_movement)) }

/-- The state built by `TravelSystem.__init__` before its final
`_update_movement_points()` call. -/
def initTravelRaw : TravelSystem where
  current_pace := .normal
  current_transport := .on_foot
  hours_traveled := 0
  movement_points := 8
  max_movement := 8
  is_resting := false
  exhaustion_level := 0
  days_traveled := 0
  supplies := 10
  mount_exhaustion := 0
  has_ranger := false
  has_outlander := false
  has_navigator := false
  favored_terrain := none

/-- A freshly constructed `TravelSystem()`. -/
def initTravel : TravelSystem := update_movement_points initTravelRaw

/-- `travel/system.py` `TravelSystem.get_movement_cost`. -/
def get_movement_cost (ts : TravelSystem) (terrain : Terrain) : ℚ :=
  let base_cost := movement_cost terrain
  let transport_modifier := terrain_modifiers ts.current_transport terrain
  if 999 ≤ transport_modifier then 999
  else
    let transport_modifier :=
      if ts.has_ranger ∧ ts.favored_terrain = some terrain then transport_modifier * (1/2)
      else transport_modifier
    if ts.has_ranger ∧ ts.current_transport = .on_foot then
      min (base_cost * transport_modifier) 1
    else base_cost * transport_modifier

/-- `travel/system.py` `TravelSystem.can_move_to`. -/
def can_move_to (ts : TravelSystem) (terrain : Terrain) : Bool :=
  let cost := get_movement_cost ts terrain
  if 999 ≤ cost then false
  else decide (cost ≤ ts.movement_points)

/-- `travel/system.py` `TravelSystem.move_to_hex`.  The 10% supply roll
(`random.random() < 0.1`) is passed in as the oracle `supplyRoll`. -/
def move_to_hex (terrain : Terrain) (supplyRoll : Bool) (ts : TravelSystem) :
    Bool × TravelSystem :=
  let cost := get_movement_cost ts terrain
  if can_move_to ts terrain then
    let ts1 := { ts with
      movement_points := ts.movement_points - cost,
      hours_traveled := ts.hours_traveled + cost / ts.max_movement * 8 }
    let ts2 := if supplyRoll then { ts1 with supplies := max 0 (ts1.supplies - 1/10) } else ts1
    (true, ts2)
  else (false, ts)

/-- `travel/system.py` `TravelSystem.rest`. -/
def rest (ts : TravelSystem) : TravelSystem :=
  let ts1 := update_movement_points ts
  { ts1 with
    movement_points := ts1.max_movement
    hours_traveled := 0
    days_traveled := ts1.days_traveled + 1
    exhaustion_level := if 0 < ts1.exhaustion_level then ts1.exhaustion_level - 1
      else ts1.exhaustion_level
    mount_exhaustion := if 0 < ts1.mount_exhaustion then ts1.mount_exhaustion - 1
      else ts1.mount_exhaustion
    supplies := max 0 (ts1.supplies - 1)
    is_resting := true }

/-- `travel/system.py` `TravelSystem.forced_march`.  The 30% exhaustion roll
(`random.random() < 0.3`) is the oracle `roll`; the computed `dc` value is
dead in the source and omitted. -/
def forced_march (roll : Bool) (ts : TravelSystem) : Bool × TravelSystem :=
  if ¬ requires_rest ts.current_transport then (false, ts)
  else
    let ts1 :=
      if 8 ≤ ts.hours_traveled ∧ roll then
        if exhaustion_resistant ts.current_transport then
          { ts with mount_exhaustion := ts.mount_exhaustion + 1 }
        else { ts with exhaustion_level := ts.exhaustion_level + 1 }
      else ts
    (true, { ts1 with
      movement_points := ts1.movement_points + 2,
      hours_traveled := ts1.hours_traveled + 2 })

/-- `travel/system.py` `TravelSystem.change_pace`.  The source validates the
string against `["slow", "normal", "fast"]`; with `Pace` an enumeration every
value is valid. -/
def change_pace (p : Pace) (ts : TravelSystem) : TravelSystem :=
  update_movement_points { ts with current_pace := p }

/-- `travel/system.py` `TravelSystem.change_transport`.  The source validates
membership in `TRANSPORTATION_MODES` (always true for the `Transport`
enumeration) and returns `True`. -/
def change_transport (t : Transport) (ts : TravelSystem) : TravelSystem :=
  update_movement_points { ts with current_transport := t }

/-- `travel/system.py` `TravelSystem.resupply`.  The parameter is the number
of days of supplies added (the repository's callers pass `10`). -/
def resupply (days : ℕ) (ts : TravelSystem) : TravelSystem :=
  { ts with supplies := min 30 (ts.supplies + days) }

/-- `travel/system.py` `TravelSystem.toggle_ranger`. -/
def toggle_ranger (ts : TravelSystem) : TravelSystem :=
  { ts with has_ranger := ! ts.has_ranger }

/-- `travel/system.py` `TravelSystem.toggle_navigator`. -/
def toggle_navigator (ts : TravelSystem) : TravelSystem :=
  update_movement_points { ts with has_navigator := ! ts.has_navigator }

/-- `travel/system.py` `TravelSystem.toggle_outlander`. -/
def toggle_outlander (ts : TravelSystem) : TravelSystem :=
  { ts with has_outlander := ! ts.has_outlander }

/-- `travel/system.py` `TravelSystem.set_favored_terrain` (every `Option
Terrain` value is in the validated vocabulary). -/
def set_favored_terrain (t : Option Terrain) (ts : TravelSystem) : TravelSystem :=
  { ts with favored_terrain := t }

/-- The navigator-adjusted base is positive for every catalog entry. -/
theorem effective_base_pos (nav : Bool) (t : Transport) (p : Pace) :
    0 < effective_base nav t p := by
  cases nav <;> cases t <;> cases p <;> decide

/-- `_update_movement_points` only rewrites `max_movement`: because the
rescaling ratio is computed against the freshly assigned maximum, the
assignment `movement_points = base_movement * ratio` restores the old
`movement_points` value exactly. -/
theorem update_movement_points_eq (ts : TravelSystem) :
    update_movement_points ts =
      { ts with max_movement :=
          ((effective_base ts.has_navigator ts.current_transport ts.current_pace : ℕ) : ℚ) } := by
  have hb : ((effective_base ts.has_navigator ts.current_transport ts.current_pace : ℕ) : ℚ) ≠ 0 := by
    have h := effective_base_pos ts.has_navigator ts.current_transport ts.current_pace
    exact_mod_cast Nat.pos_iff_ne_zero.mp h
  unfold update_movement_points
  by_cases hr : ts.is_resting
  · simp [hr]
  · simp only [hr, Bool.false_eq_true, if_false, if_neg hb]
    rw [mul_comm, div_mul_cancel₀ _ hb]

/-- Evaluating a freshly constructed `TravelSystem()`. -/
theorem initTravel_eq : initTravel = { initTravelRaw with max_movement := 8 } := by
  rw [initTravel, update_movement_points_eq]
  norm_num [initTravelRaw, effective_base, base_hexes_per_8h]

/-- Evaluating `change_transport("horse")` on the fresh state. -/
theorem change_transport_horse_init_eq :
    change_transport .horse initTravel =
      { initTravelRaw with current_transport := .horse, max_movement := 12 } := by
  rw [change_transport, initTravel_eq, update_movement_points_eq]
  norm_num [initTravelRaw, effective_base, base_hexes_per_8h]

/-- Evaluating `toggle_navigator()` on the fresh state. -/
theorem toggle_navigator_init_eq :
    toggle_navigator initTravel =
      { initTravelRaw with has_navigator := true, max_movement := 8 } := by
  rw [toggle_navigator, initTravel_eq, update_movement_points_eq]
  norm_num [initTravelRaw, effective_base, base_hexes_per_8h]

/-- C1: the recompute triggered by `change_pace`, `change_transport` and
`toggle_navigator` never rescales the current movement points: from the fresh
state (8/8 points, not resting), switching to a horse raises the maximum to
12 but leaves the absolute points at 8, so the remaining fraction drops from
1 to 2/3 instead of being preserved. -/
theorem C1_recompute_never_rescales :
    (∀ ts : TravelSystem,
      (update_movement_points ts).movement_points = ts.movement_points) ∧
    initTravel.is_resting = false ∧
    initTravel.movement_points = 8 ∧ initTravel.max_movement = 8 ∧
    (change_transport .horse initTravel).max_movement = 12 ∧
    (change_transport .horse initTravel).movement_points = 8 ∧
    (change_transport .horse initTravel).movement_points /
      (change_transport .horse initTravel).max_movement ≠
      initTravel.movement_points / initTravel.max_movement := by
  refine ⟨fun ts => ?_, ?_, ?_, ?_, ?_, ?_, ?_⟩
  · rw [update_movement_points_eq]
  · rw [initTravel_eq]; try rfl
  · rw [initTravel_eq]; try rfl
  · rw [initTravel_eq]; try rfl
  · rw [change_transport_horse_init_eq]; try rfl
  · rw [change_transport_horse_init_eq]; try rfl
  · rw [change_transport_horse_init_eq, initTravel_eq]
    norm_num [initTravelRaw]

/-- C2 counterexample: toggling the navigator on the fresh state (on foot,
normal pace) leaves `maxMovement` at 8, not at the claimed 8 × 1.1 = 8.8,
because the source truncates with `int(base_movement * 1.1)`. -/
theorem C2_counterexample :
    (toggle_navigator initTravel).max_movement ≠ (8 : ℚ) * (11/10) := by
  rw [toggle_navigator_init_eq]
  norm_num

/-- C2 (amended): after every recompute, `maxMovement` equals the transport's
base hexes-per-8-hours for the current pace, multiplied by 1.1 and truncated
to an integer (`int(base * 1.1)`, i.e. `⌊11·base/10⌋`) when `hasNavigator`,
and unchanged otherwise; a fresh state has max 8, a horse at normal pace has
max 12, and a navigator on foot at normal pace has max 8 (not 8.8). -/
theorem C2_max_movement_formula :
    (∀ (ts : TravelSystem) (p : Pace),
      (change_pace p ts).max_movement =
        ((effective_base ts.has_navigator ts.current_transport p : ℕ) : ℚ)) ∧
    (∀ (ts : TravelSystem) (t : Transport),
      (change_transport t ts).max_movement =
        ((effective_base ts.has_navigator t ts.current_pace : ℕ) : ℚ)) ∧
    (∀ ts : TravelSystem,
      (toggle_navigator ts).max_movement =
        ((effective_base (! ts.has_navigator) ts.current_transport ts.current_pace : ℕ) : ℚ)) ∧
    initTravel.max_movement = 8 ∧
    (change_transport .horse initTravel).max_movement = 12 ∧
    (toggle_navigator initTravel).max_movement = 8 := by
  refine ⟨fun ts p => ?_, fun ts t => ?_, fun ts => ?_,
    by rw [initTravel_eq]; try rfl, by rw [change_transport_horse_init_eq]; try rfl,
    by rw [toggle_navigator_init_eq]; try rfl⟩
  · rw [change_pace, update_movement_points_eq]
  · rw [change_transport, update_movement_points_eq]
  · rw [toggle_navigator, update_movement_points_eq]

/-- C4: with a ranger on foot, the movement cost is exactly
`min(baseCost × modifier, 1.0)` — the modifier halved first when the terrain
is the favored one — except that a raw transport modifier at or above the
impassable sentinel 999 yields 999 even for the ranger. -/
theorem C4_ranger_on_foot_cap (ts : TravelSystem) (tr : Terrain)
    (hr : ts.has_ranger = true) (ht : ts.current_transport = .on_foot) :
    get_movement_cost ts tr =
      if 999 ≤ terrain_modifiers .on_foot tr then 999
      else
        min (movement_cost tr *
          (if ts.favored_terrain = some tr then terrain_modifiers .on_foot tr * (1/2)
           else terrain_modifiers .on_foot tr)) 1 := by
  simp [get_movement_cost, hr, ht]

/-- C4 witness: a ranger on foot in mountains (base cost 3, modifier 1) pays
exactly `min(3, 1) = 1`. -/
theorem C4_witness :
    get_movement_cost { initTravelRaw with has_ranger := true } .mountains =
      if 999 ≤ terrain_modifiers .on_foot .mountains then 999
      else
        min (movement_cost .mountains *
          (if ({ initTravelRaw with has_ranger := true } : TravelSystem).favored_terrain =
              some .mountains then terrain_modifiers .on_foot .mountains * (1/2)
           else terrain_modifiers .on_foot .mountains)) 1 :=
  C4_ranger_on_foot_cap { initTravelRaw with has_ranger := true } .mountains rfl rfl

/-- C6: immediately after `rest()`, the movement points equal the (freshly
recomputed) maximum, hours are reset, the day counter advances, both
exhaustion counters drop by one (floored at zero — `ℕ` subtraction), and
supplies drop by exactly one floored at zero; from the fresh state with 10
supplies one rest leaves 9. -/
theorem C6_rest_postconditions :
    (∀ ts : TravelSystem,
      (rest ts).movement_points = (rest ts).max_movement ∧
      (rest ts).hours_traveled = 0 ∧
      (rest ts).days_traveled = ts.days_traveled + 1 ∧
      (rest ts).exhaustion_level = ts.exhaustion_level - 1 ∧
      (rest ts).mount_exhaustion = ts.mount_exhaustion - 1 ∧
      (rest ts).supplies = max 0 (ts.supplies - 1)) ∧
    initTravel.supplies = 10 ∧ (rest initTravel).supplies = 9 := by
  constructor
  · intro ts
    rw [rest, update_movement_points_eq]
    refine ⟨rfl, rfl, rfl, ?_, ?_, rfl⟩ <;> dsimp <;> split <;> omega
  · rw [rest, update_movement_points_eq, initTravel_eq]
    norm_num [initTravelRaw, max_def]

/-- `rest` in closed form: recompute the maximum (the recompute leaves the
points untouched, see `update_movement_points_eq`), then apply the rest
effects. -/
theorem rest_eq (ts : TravelSystem) :
    rest ts =
      { ts with
        max_movement :=
          ((effective_base ts.has_navigator ts.current_transport ts.current_pace : ℕ) : ℚ)
        movement_points :=
          ((effective_base ts.has_navigator ts.current_transport ts.current_pace : ℕ) : ℚ)
        hours_traveled := 0
        days_traveled := ts.days_traveled + 1
        exhaustion_level := ts.exhaustion_level - 1
        mount_exhaustion := ts.mount_exhaustion - 1
        supplies := max 0 (ts.supplies - 1)
        is_resting := true } := by
  rw [rest, update_movement_points_eq]
  congr 1 <;> dsimp <;> split <;> omega

/-- On a boat, the water cost is 999 × 0.5, further halved for a ranger whose
favored terrain is water; the impassable check only sees the raw 0.5
modifier. -/
theorem boat_water_cost_cases (ts : TravelSystem)
    (hb : ts.current_transport = .boat) :
    get_movement_cost ts .water =
      if ts.has_ranger = true ∧ ts.favored_terrain = some .water then 999/4
      else 999/2 := by
  simp only [get_movement_cost, hb]
  norm_num [terrain_modifiers, movement_cost]
  split_ifs <;> norm_num

/-- On a boat with fewer than 249.75 movement points, water cannot be
entered. -/
theorem boat_water_blocked (ts : TravelSystem)
    (hb : ts.current_transport = .boat) (hm : ts.movement_points < 999/4) :
    can_move_to ts .water = false := by
  rw [can_move_to, boat_water_cost_cases ts hb]
  split_ifs with h h2 h3 <;> try rfl
  · simp only [decide_eq_false_iff_not, not_le]
    exact hm.trans_le (by norm_num)
  · simp only [decide_eq_false_iff_not, not_le]
    refine lt_of_lt_of_le ?_ (by norm_num : (999/4 : ℚ) ≤ 999/2)
    exact hm

/-- A boat state with a ranger whose favored terrain is water and 300
movement points. -/
def boatRangerState : TravelSystem :=
  { initTravelRaw with
    current_transport := .boat
    has_ranger := true
    favored_terrain := some .water
    movement_points := 300 }

/-- C10 counterexample: with transport boat, a ranger and favored terrain
water, `get_movement_cost("water")` is 249.75 rather than the claimed 499.5,
and with 300 < 499.5 movement points `can_move_to("water")` is true rather
than false. -/
theorem C10_counterexample :
    get_movement_cost boatRangerState .water ≠ 999/2 ∧
    boatRangerState.movement_points < 999/2 ∧
    can_move_to boatRangerState .water = true := by
  have h := boat_water_cost_cases boatRangerState rfl
  rw [if_pos ⟨rfl, rfl⟩] at h
  refine ⟨by rw [h]; norm_num, by norm_num [boatRangerState, initTravelRaw], ?_⟩
  rw [can_move_to, h]
  norm_num [boatRangerState, initTravelRaw]

/-- C10 (amended): with transport boat the water cost is 499.5 (999 × 0.5,
the impassable-sentinel check applying only to the 0.5 modifier) unless the
party has a ranger with favored terrain water, in which case it is 249.75;
in every case it is at least 249.75, so `can_move_to("water")` is false
whenever movement points are below 249.75 — in particular immediately after
any rest at any pace, where the movement pool is at most 17. -/
theorem C10_boat_water_impassable (ts : TravelSystem)
    (hb : ts.current_transport = .boat) :
    (¬ (ts.has_ranger = true ∧ ts.favored_terrain = some .water) →
      get_movement_cost ts .water = 999/2) ∧
    ((ts.has_ranger = true ∧ ts.favored_terrain = some .water) →
      get_movement_cost ts .water = 999/4) ∧
    (ts.movement_points < 999/4 → can_move_to ts .water = false) ∧
    can_move_to (rest ts) .water = false := by
  have hc := boat_water_cost_cases ts hb
  refine ⟨fun h => by rwa [if_neg h] at hc, fun h => by rwa [if_pos h] at hc,
    boat_water_blocked ts hb, ?_⟩
  have h17 : effective_base ts.has_navigator Transport.boat ts.current_pace ≤ 17 := by
    cases ts.has_navigator <;> cases ts.current_pace <;> decide
  refine boat_water_blocked (rest ts) (by rw [rest_eq, hb]) ?_
  rw [rest_eq, hb]
  dsimp
  calc ((effective_base ts.has_navigator Transport.boat ts.current_pace : ℕ) : ℚ)
      ≤ 17 := by exact_mod_cast h17
    _ < 999/4 := by norm_num

/-- C10 witness: the fresh state moved onto a boat satisfies the amended
claim's conclusions, e.g. water costs 499.5 and is unreachable right after a
rest. -/
theorem C10_witness :
    (¬ (({ initTravelRaw with current_transport := .boat } : TravelSystem).has_ranger = true ∧
        ({ initTravelRaw with current_transport := .boat } : TravelSystem).favored_terrain =
          some .water) →
      get_movement_cost { initTravelRaw with current_transport := .boat } .water = 999/2) ∧
    ((({ initTravelRaw with current_transport := .boat } : TravelSystem).has_ranger = true ∧
        ({ initTravelRaw with current_transport := .boat } : TravelSystem).favored_terrain =
          some .water) →
      get_movement_cost { initTravelRaw with current_transport := .boat } .water = 999/4) ∧
    (({ initTravelRaw with current_transport := .boat } : TravelSystem).movement_points < 999/4 →
      can_move_to { initTravelRaw with current_transport := .boat } .water = false) ∧
    can_move_to (rest { initTravelRaw with current_transport := .boat }) .water = false :=
  C10_boat_water_impassable { initTravelRaw with current_transport := .boat } rfl

/-- A user-level operation on the travel system, with the stochastic rolls
of the source (`random.random()` outcomes) made explicit. -/
inductive TravelOp
  | move (terrain : Terrain) (supplyRoll : Bool)
  | restOp
  | forcedMarchOp (roll : Bool)
  | changePaceOp (p : Pace)
  | changeTransportOp (t : Transport)
  | resupplyOp (days : ℕ)
  | toggleRangerOp
  | toggleNavigatorOp
  | toggleOutlanderOp
  | setFavoredOp (t : Option Terrain)

/-- Apply one operation (`move_to_hex`, `rest`, `forced_march`, pace and
transport changes, `resupply`, the trait toggles, `set_favored_terrain`). -/
def applyTravelOp (op : TravelOp) (ts : TravelSystem) : TravelSystem :=
  match op with
  | .move terrain supplyRoll => (move_to_hex terrain supplyRoll ts).2
  | .restOp => rest ts
  | .forcedMarchOp roll => (forced_march roll ts).2
  | .changePaceOp p => change_pace p ts
  | .changeTransportOp t => change_transport t ts
  | .resupplyOp days => resupply days ts
  | .toggleRangerOp => toggle_ranger ts
  | .toggleNavigatorOp => toggle_navigator ts
  | .toggleOutlanderOp => toggle_outlander ts
  | .setFavoredOp t => set_favored_terrain t ts

/-- The inductive invariant behind C5. -/
def TravelInv (ts : TravelSystem) : Prop :=
  0 ≤ ts.movement_points ∧ 0 ≤ ts.supplies ∧ 0 ≤ ts.max_movement

theorem travelInv_init : TravelInv initTravel := by
  rw [initTravel_eq]
  refine ⟨?_, ?_, ?_⟩ <;> norm_num [initTravelRaw]

theorem can_move_to_le (ts : TravelSystem) (terrain : Terrain)
    (h : can_move_to ts terrain = true) :
    get_movement_cost ts terrain ≤ ts.movement_points := by
  rw [can_move_to] at h
  split_ifs at h
  exact of_decide_eq_true h

theorem travelInv_step (op : TravelOp) (ts : TravelSystem) (h : TravelInv ts) :
    TravelInv (applyTravelOp op ts) := by
  obtain ⟨hm, hs, hx⟩ := h
  cases op with
  | move terrain supplyRoll =>
    rw [applyTravelOp, move_to_hex]
    dsimp only
    split_ifs with h1 h2
    · exact ⟨by dsimp; linarith [can_move_to_le ts terrain h1],
        by dsimp; exact le_max_left 0 _, hx⟩
    · exact ⟨by dsimp; linarith [can_move_to_le ts terrain h1], hs, hx⟩
    · exact ⟨hm, hs, hx⟩
  | restOp =>
    rw [applyTravelOp, rest_eq]
    exact ⟨Nat.cast_nonneg _, le_max_left 0 _, Nat.cast_nonneg _⟩
  | forcedMarchOp roll =>
    rw [applyTravelOp, forced_march]
    dsimp only
    split_ifs <;> refine ⟨by dsimp; linarith, hs, hx⟩
  | changePaceOp p =>
    rw [applyTravelOp, change_pace, update_movement_points_eq]
    exact ⟨hm, hs, Nat.cast_nonneg _⟩
  | changeTransportOp t =>
    rw [applyTravelOp, change_transport, update_movement_points_eq]
    exact ⟨hm, hs, Nat.cast_nonneg _⟩
  | resupplyOp days =>
    rw [applyTravelOp, resupply]
    exact ⟨hm, le_min (by norm_num) (by positivity), hx⟩
  | toggleRangerOp => exact ⟨hm, hs, hx⟩
  | toggleNavigatorOp =>
    rw [applyTravelOp, toggle_navigator, update_movement_points_eq]
    exact ⟨hm, hs, Nat.cast_nonneg _⟩
  | toggleOutlanderOp => exact ⟨hm, hs, hx⟩
  | setFavoredOp t => exact ⟨hm, hs, hx⟩

theorem travelInv_foldl (ops : List TravelOp) (ts : TravelSystem)
    (h : TravelInv ts) :
    TravelInv (ops.foldl (fun s op => applyTravelOp op s) ts) := by
  induction ops generalizing ts with
  | nil => exact h
  | cons op rest ih => exact ih _ (travelInv_step op ts h)

/-- C5: in every state reachable from the fresh `TravelSystem()` by any
sequence of moves (gated by `can_move_to`), rests, forced marches, pace and
transport changes, resupplies, trait toggles and favored-terrain changes,
movement points and supplies are nonnegative. -/
theorem C5_nonnegative_invariant (ops : List TravelOp) :
    0 ≤ (ops.foldl (fun s op => applyTravelOp op s) initTravel).movement_points ∧
    0 ≤ (ops.foldl (fun s op => applyTravelOp op s) initTravel).supplies := by
  have h := travelInv_foldl ops initTravel travelInv_init
  exact ⟨h.1, h.2.1⟩

/-- `core/hex.py` `Hex`: a tile.  `distance_from_current` is a Python int
(default 999). -/
structure Hex where
  q : Int
  r : Int
  s : Int
  terrain : Terrain
  description : String
  explored : Bool
  visible : Bool
  generating : Bool
  distance_from_current : Int
deriving DecidableEq

/-- The record serialized for a tile by `Hex.to_dict`: `asdict(self)` with
the runtime-only keys `generating` and `distance_from_current` popped. -/
structure HexDict where
  q : Int
  r : Int
  s : Int
  terrain : Terrain
  description : String
  explored : Bool
  visible : Bool
deriving DecidableEq

/-- `core/hex.py` `Hex.to_dict`. -/
def hex_to_dict (h : Hex) : HexDict :=
  { q := h.q, r := h.r, s := h.s, terrain := h.terrain,
    description := h.description, explored := h.explored, visible := h.visible }

/-- `core/hex.py` `Hex.from_dict`: `cls(**data, generating=False,
distance_from_current=999)`. -/
def hex_from_dict (d : HexDict) : Hex :=
  { q := d.q, r := d.r, s := d.s, terrain := d.terrain,
    description := d.description, explored := d.explored, visible := d.visible,
    generating := false, distance_from_current := 999 }

/-- The dictionary produced by `TravelSystem.get_save_data` (all twelve keys
are always present, so the `data.get(key, default)` fallbacks of
`load_from_data` are never taken on a round trip). -/
structure TravelSaveData where
  days : ℕ
  hours : ℚ
  movement : ℚ
  pace : Pace
  exhaustion : ℕ
  transport : Transport
  supplies : ℚ
  mount_exhaustion : ℕ
  has_ranger : Bool
  has_navigator : Bool
  has_outlander : Bool
  favored_terrain : Option Terrain

/-- `travel/system.py` `TravelSystem.get_save_data`. -/
def get_save_data (ts : TravelSystem) : TravelSaveData :=
  { days := ts.days_traveled, hours := ts.hours_traveled,
    movement := ts.movement_points, pace := ts.current_pace,
    exhaustion := ts.exhaustion_level, transport := ts.current_transport,
    supplies := ts.supplies, mount_exhaustion := ts.mount_exhaustion,
    has_ranger := ts.has_ranger, has_navigator := ts.has_navigator,
    has_outlander := ts.has_outlander, favored_terrain := ts.favored_terrain }

/-- `travel/system.py` `TravelSystem.load_from_data`, applied to the travel
system `ts0` of the map being loaded into; it overwrites the serialized
fields and then calls `_update_movement_points()`. -/
def load_from_data (d : TravelSaveData) (ts0 : TravelSystem) : TravelSystem :=
  update_movement_points
    { ts0 with
      days_traveled := d.days
      hours_traveled := d.hours
      movement_points := d.movement
      current_pace := d.pace
      exhaustion_level := d.exhaustion
      current_transport := d.transport
      supplies := d.supplies
      mount_exhaustion := d.mount_exhaustion
      has_ranger := d.has_ranger
      has_navigator := d.has_navigator
      has_outlander := d.has_outlander
      favored_terrain := d.favored_terrain }

/-- C8: a save/load round trip reproduces every tile field except the
runtime-only `generating` (reset to false) and `distance_from_current`
(reset to 999) — `HexMap.save_to_json` serializes the tile list with
`to_dict` and `load_from_json` rebuilds it with `from_dict` — and, for any
prior state `ts0` of the travel system being loaded into, reproduces the
travel state on all twelve serialized fields (the final
`_update_movement_points()` call of `load_from_data` does not alter the
restored movement points). -/
theorem C8_save_load_round_trip (tiles : List Hex) (ts ts0 : TravelSystem) :
    (tiles.map hex_to_dict).map hex_from_dict =
      tiles.map (fun h => { h with generating := false, distance_from_current := 999 }) ∧
    ((load_from_data (get_save_data ts) ts0).days_traveled = ts.days_traveled ∧
     (load_from_data (get_save_data ts) ts0).hours_traveled = ts.hours_traveled ∧
     (load_from_data (get_save_data ts) ts0).movement_points = ts.movement_points ∧
     (load_from_data (get_save_data ts) ts0).current_pace = ts.current_pace ∧
     (load_from_data (get_save_data ts) ts0).exhaustion_level = ts.exhaustion_level ∧
     (load_from_data (get_save_data ts) ts0).current_transport = ts.current_transport ∧
     (load_from_data (get_save_data ts) ts0).supplies = ts.supplies ∧
     (load_from_data (get_save_data ts) ts0).mount_exhaustion = ts.mount_exhaustion ∧
     (load_from_data (get_save_data ts) ts0).has_ranger = ts.has_ranger ∧
     (load_from_data (get_save_data ts) ts0).has_navigator = ts.has_navigator ∧
     (load_from_data (get_save_data ts) ts0).has_outlander = ts.has_outlander ∧
     (load_from_data (get_save_data ts) ts0).favored_terrain = ts.favored_terrain) := by
  constructor
  · rw [List.map_map]
    exact List.map_congr_left fun h _ => rfl
  · rw [load_from_data, update_movement_points_eq, get_save_data]
    exact ⟨rfl, rfl, rfl, rfl, rfl, rfl, rfl, rfl, rfl, rfl, rfl, rfl⟩

/-- The six fixed direction vectors of `HexCoordinates.get_neighbors`. -/
def hex_directions : List (Int × Int × Int) :=
  [(1, 0, -1), (1, -1, 0), (0, -1, 1), (-1, 0, 1), (-1, 1, 0), (0, 1, -1)]

/-- `core/hex.py` `HexCoordinates.get_neighbors`. -/
def get_neighbors (q r s : Int) : List (Int × Int × Int) :=
  hex_directions.map (fun d => (q + d.1, r + d.2.1, s + d.2.2))

/-- `core/hex.py` `HexCoordinates.distance`: `(|Δq| + |Δr| + |Δs|) // 2`.
The summands are nonnegative, so Python floor division agrees with `ℕ`
division. -/
def hex_distance (q1 r1 s1 q2 r2 s2 : Int) : ℕ :=
  ((q1 - q2).natAbs + (r1 - r2).natAbs + (s1 - s2).natAbs) / 2

/-- The sparse tile dictionary `HexMap.hexes`, modelled as a partial map
from cube coordinates to tiles. -/
def HexStore : Type := Int × Int × Int → Option Hex

/-- Dictionary assignment `self.hexes[coord] = hex_obj`. -/
def store_insert (st : HexStore) (c : Int × Int × Int) (h : Hex) : HexStore :=
  fun c2 => if c2 = c then some h else st c2

/-- The parts of `core/map.py` `HexMap` state that `explore_hex` touches. -/
structure HexMap where
  hexes : HexStore
  current_position : Int × Int × Int
  travel_system : TravelSystem

/-- The outcome of `HexMap.explore_hex` (a success flag plus a message in
the source). -/
inductive ExploreResult
  | success
  | notFound
  | stillGenerating
  | insufficientMovement
deriving DecidableEq

/-- `core/map.py` `HexMap._create_simple_hex` = `create_hex`: the terrain
itself is chosen stochastically from the global PRNG (60% neighbor coherence,
else a uniform pick), abstracted here as the oracle `mk`; the remaining
fields are literal: placeholder description, `generating=True`, and the
dataclass defaults `explored=False`, `visible=False`,
`distance_from_current=999`. -/
def create_hex (mk : Int × Int × Int → Terrain) (c : Int × Int × Int) : Hex :=
  { q := c.1, r := c.2.1, s := c.2.2, terrain := mk c,
    description := "Awaiting description...",
    explored := false, visible := false, generating := true,
    distance_from_current := 999 }

/-- `core/map.py` `HexMap.calculate_distances`: recompute
`distance_from_current` for every tile from the current position. -/
def calculate_distances (pos : Int × Int × Int) (st : HexStore) : HexStore :=
  fun c => (st c).map fun h =>
    { h with distance_from_current :=
        (hex_distance pos.1 pos.2.1 pos.2.2 c.1 c.2.1 c.2.2 : Int) }

/-- `core/map.py` `HexMap.explore_hex`.  Returns the result, the new map
state, and whether a description-generation batch was started
(`gen_manager.start_generation` is called exactly when at least one missing
neighbor tile was created).  `mk` is the stochastic terrain oracle of
`create_hex` and `supplyRoll` the supply-consumption roll inside
`move_to_hex`. -/
def explore_hex (m : HexMap) (c : Int × Int × Int)
    (mk : Int × Int × Int → Terrain) (supplyRoll : Bool) :
    ExploreResult × HexMap × Bool :=
  match m.hexes c with
  | none => (.notFound, m, false)
  | some hx =>
    if hx.generating then (.stillGenerating, m, false)
    else if can_move_to m.travel_system hx.terrain = false then
      (.insufficientMovement, m, false)
    else
      let travel2 := (move_to_hex hx.terrain supplyRoll m.travel_system).2
      let st1 := store_insert m.hexes c { hx with explored := true }
      let step := fun (acc : HexStore × Bool) (nc : Int × Int × Int) =>
        match acc.1 nc with
        | none => (store_insert acc.1 nc { create_hex mk nc with visible := true }, true)
        | some nh => (store_insert acc.1 nc { nh with visible := true }, acc.2)
      let folded := (get_neighbors c.1 c.2.1 c.2.2).foldl step (st1, false)
      (.success,
        { hexes := calculate_distances c folded.1,
          current_position := c,
          travel_system := travel2 },
        folded.2)

/-- C7: exploring a coordinate whose tile exists with `generating=true`
returns the still-generating failure, leaves the entire map state (tiles,
current position, travel system) unchanged, and starts no generation
batch. -/
theorem C7_explore_still_generating (m : HexMap) (c : Int × Int × Int)
    (mk : Int × Int × Int → Terrain) (supplyRoll : Bool) (hx : Hex)
    (h1 : m.hexes c = some hx) (h2 : hx.generating = true) :
    explore_hex m c mk supplyRoll = (.stillGenerating, m, false) := by
  rw [explore_hex, h1]
  simp [h2]

/-- A one-tile map whose origin tile is still generating. -/
def genMap : HexMap :=
  { hexes := fun c => if c = (0, 0, 0) then
      some { q := 0, r := 0, s := 0, terrain := .plains,
             description := "Awaiting description...", explored := false,
             visible := true, generating := true, distance_from_current := 0 }
      else none,
    current_position := (0, 0, 0),
    travel_system := initTravelRaw }

/-- C7 witness: on the concrete one-tile map whose origin is generating,
`explore_hex` returns `stillGenerating` and the unchanged map. -/
theorem C7_witness :
    explore_hex genMap (0, 0, 0) (fun _ => .plains) false =
      (.stillGenerating, genMap, false) :=
  C7_explore_still_generating genMap (0, 0, 0) (fun _ => .plains) false
    { q := 0, r := 0, s := 0, terrain := .plains,
      description := "Awaiting description...", explored := false,
      visible := true, generating := true, distance_from_current := 0 }
    rfl rfl

/-- Python `range(a, b)` over integers, as a list. -/
def int_range (a b : Int) : List Int :=
  (List.range (b - a).toNat).map (fun i : ℕ => a + (i : Int))

/-- `core/hex.py` `HexCoordinates.get_hexes_within_radius`: the source's two
nested `for dq in range(-radius, radius+1): for dr in range(max(-radius,
-dq-radius), min(radius, -dq+radius)+1)` loops appending
`(q+dq, r+dr, s+ds)` with `ds = -dq-dr`. -/
def get_hexes_within_radius (q r s : Int) (radius : ℕ) : List (Int × Int × Int) :=
  (int_range (-(radius : Int)) (radius + 1)).flatMap fun dq =>
    (int_range (max (-(radius : Int)) (-dq - radius))
        (min (radius : Int) (-dq + radius) + 1)).map fun dr =>
      (q + dq, r + dr, s + (-dq - dr))

theorem length_int_range (a b : Int) : (int_range a b).length = (b - a).toNat := by
  rw [int_range, List.length_map, List.length_range]

theorem mem_int_range {a b x : Int} : x ∈ int_range a b ↔ a ≤ x ∧ x < b := by
  simp only [int_range, List.mem_map, List.mem_range]
  constructor
  · rintro ⟨i, hi, rfl⟩
    omega
  · rintro ⟨h1, h2⟩
    exact ⟨(x - a).toNat, by omega, by omega⟩

theorem int_range_succ (a : Int) (k : ℕ) :
    int_range a (a + (k + 1 : ℕ)) = int_range a (a + (k : ℕ)) ++ [a + (k : ℕ)] := by
  rw [int_range, int_range]
  have h1 : (a + ((k : ℕ) + 1 : ℕ) - a).toNat = k + 1 := by omega
  have h2 : (a + (k : ℕ) - a).toNat = k := by omega
  rw [h1, h2, List.range_succ, List.map_append]
  rfl

theorem length_flatMap_int_range {β : Type} (n : ℕ) (a : Int) (f : Int → List β) :
    ((int_range a (a + (n : ℕ))).flatMap f).length
      = ∑ i in Finset.range n, (f (a + (i : ℕ))).length := by
  induction n with
  | zero =>
    have h0 : (a + ((0 : ℕ) : Int) - a).toNat = 0 := by omega
    simp [int_range, h0]
  | succ k ih =>
    rw [int_range_succ, List.flatMap_append, List.length_append, ih,
      Finset.sum_range_succ]
    simp

theorem hexes_within_radius_length (q r s : Int) (R : ℕ) :
    (get_hexes_within_radius q r s R).length = 3*R*R + 3*R + 1 := by
  have ha : ((R : Int) + 1) = -(R : Int) + ((2*R+1 : ℕ) : Int) := by push_cast; ring
  rw [get_hexes_within_radius, ha, length_flatMap_int_range]
  have step : ∀ i ∈ Finset.range (2*R+1),
      ((int_range (max (-(R:Int)) (-(-(R:Int) + (i:ℕ)) - R))
          (min (R:Int) (-(-(R:Int) + (i:ℕ)) + R) + 1)).map fun dr =>
          (q + (-(R:Int) + (i:ℕ)), r + dr, s + (-(-(R:Int) + (i:ℕ)) - dr))).length
        = if i ≤ R then R+1+i else 3*R+1-i := by
    intro i hi
    simp only [Finset.mem_range] at hi
    rw [List.length_map, length_int_range]
    split_ifs with h <;> omega
  rw [Finset.sum_congr rfl step]
  have hcast : ((∑ i in Finset.range (2*R+1),
      if i ≤ R then R+1+i else 3*R+1-i : ℕ) : ℤ) = 3*R*R + 3*R + 1 := by
    rw [Nat.cast_sum]
    have h1 : ∀ i ∈ Finset.range (2*R+1),
        ((if i ≤ R then R+1+i else 3*R+1-i : ℕ) : ℤ)
          = if i ≤ R then ((R:ℤ) + 1 + i) else (3*(R:ℤ) + 1 - i) := by
      intro i hi
      simp only [Finset.mem_range] at hi
      split_ifs with h <;> push_cast <;> omega
    rw [Finset.sum_congr rfl h1, Finset.range_eq_Ico,
      ← Finset.sum_Ico_consecutive _ (show 0 ≤ R+1 by omega) (show R+1 ≤ 2*R+1 by omega)]
    have e1 : ∑ i in Finset.Ico 0 (R+1), (if i ≤ R then ((R:ℤ) + 1 + i) else (3*(R:ℤ) + 1 - i))
        = ∑ i in Finset.range (R+1), ((R:ℤ) + 1 + i) := by
      rw [Nat.Ico_zero_eq_range]
      refine Finset.sum_congr rfl fun i hi => ?_
      rw [if_pos (by simp only [Finset.mem_range] at hi; omega)]
    have e2 : ∑ i in Finset.Ico (R+1) (2*R+1), (if i ≤ R then ((R:ℤ) + 1 + i) else (3*(R:ℤ) + 1 - i))
        = ∑ k in Finset.range R, ((2*(R:ℤ)) - k) := by
      rw [Finset.sum_Ico_eq_sum_range]
      have hR : 2*R+1 - (R+1) = R := by omega
      rw [hR]
      refine Finset.sum_congr rfl fun k hk => ?_
      rw [if_neg (by simp only [Finset.mem_range] at hk; omega)]
      push_cast
      ring
    rw [e1, e2]
    have g1 : ∑ i in Finset.range (R+1), ((R:ℤ) + 1 + i)
        = ((R:ℤ)+1) * (R+1) + (R + ∑ i in Finset.range R, (i:ℤ)) := by
      rw [Finset.sum_add_distrib, Finset.sum_const, Finset.card_range, Finset.sum_range_succ]
      ring
    have g2 : ∑ k in Finset.range R, ((2*(R:ℤ)) - k)
        = 2*R*R - ∑ i in Finset.range R, (i:ℤ) := by
      rw [Finset.sum_sub_distrib, Finset.sum_const, Finset.card_range]
      ring
    rw [g1, g2]
    ring
  exact_mod_cast hcast

theorem mem_hexes_within_radius {q r s : Int} {R : ℕ} {x : Int × Int × Int}
    (hx : x ∈ get_hexes_within_radius q r s R) :
    ∃ dq dr : Int, -(R:Int) ≤ dq ∧ dq ≤ R ∧ -(R:Int) ≤ dr ∧ -dq - R ≤ dr ∧
      dr ≤ R ∧ dr ≤ -dq + R ∧ x = (q + dq, r + dr, s + (-dq - dr)) := by
  rw [get_hexes_within_radius] at hx
  simp only [List.mem_flatMap, List.mem_map, mem_int_range] at hx
  obtain ⟨dq, ⟨h1, h2⟩, dr, ⟨h3, h4⟩, rfl⟩ := hx
  obtain ⟨h3a, h3b⟩ := max_le_iff.mp h3
  obtain ⟨h4a, h4b⟩ := le_min_iff.mp (Int.lt_add_one_iff.mp h4)
  exact ⟨dq, dr, h1, by omega, h3a, h3b, h4a, h4b, rfl⟩

/-- C9: for every center and radius, `get_hexes_within_radius` enumerates
exactly `3·radius² + 3·radius + 1` coordinates (so exactly 1 for radius 0);
when the center satisfies the cube invariant `q + r + s = 0` every listed
coordinate does too; and every listed coordinate is at hex distance at most
`radius` from the center. -/
theorem C9_hexes_within_radius (q r s : Int) (R : ℕ) :
    (get_hexes_within_radius q r s R).length = 3*R*R + 3*R + 1 ∧
    (q + r + s = 0 → ∀ x ∈ get_hexes_within_radius q r s R,
      x.1 + x.2.1 + x.2.2 = 0) ∧
    (∀ x ∈ get_hexes_within_radius q r s R,
      hex_distance q r s x.1 x.2.1 x.2.2 ≤ R) := by
  refine ⟨hexes_within_radius_length q r s R, ?_, ?_⟩
  · intro h0 x hx
    obtain ⟨dq, dr, _, _, _, _, _, _, rfl⟩ := mem_hexes_within_radius hx
    dsimp only
    omega
  · intro x hx
    obtain ⟨dq, dr, h1, h2, h3, h4, h5, h6, rfl⟩ := mem_hexes_within_radius hx
    rw [hex_distance]
    dsimp only
    omega

/-- C9 witness: at the origin with radius 1, the enumeration has 7 elements,
all zero-sum and all within distance 1. -/
theorem C9_witness :
    (get_hexes_within_radius 0 0 0 1).length = 3*1*1 + 3*1 + 1 ∧
    (∀ x ∈ get_hexes_within_radius 0 0 0 1, x.1 + x.2.1 + x.2.2 = 0) ∧
    (∀ x ∈ get_hexes_within_radius 0 0 0 1,
      hex_distance 0 0 0 x.1 x.2.1 x.2.2 ≤ 1) :=
  ⟨(C9_hexes_within_radius 0 0 0 1).1,
   (C9_hexes_within_radius 0 0 0 1).2.1 rfl,
   (C9_hexes_within_radius 0 0 0 1).2.2⟩

/-- The seventeen biome tags of `generation/terrain_generator.py`
`TerrainType`. -/
inductive TerrainType
  | deep_ocean | ocean | shallow_water | beach | plains | forest | hills
  | mountains | high_mountains | desert | savanna | jungle | swamp | tundra
  | ice | lake | river
deriving DecidableEq

/-- `generation/terrain_generator.py` `TerrainGenerator.determine_terrain`:
the elevation/moisture/temperature decision table (float thresholds as exact
rationals). -/
def determine_terrain (elevation moisture temperature : ℚ) : TerrainType :=
  if elevation < -(1/2) then .deep_ocean
  else if elevation < -(1/5) then .ocean
  else if elevation < -(1/20) then .shallow_water
  else if elevation < 1/20 then
    if temperature < -(1/2) then .tundra
    else if moisture > 7/10 then .swamp
    else .beach
  else if elevation > 17/20 then .high_mountains
  else if elevation > 3/5 then
    if temperature < -(3/10) then .high_mountains else .mountains
  else if elevation > 3/10 then
    if temperature < -(1/2) then .tundra
    else if temperature < 0 then
      if moisture > 1/2 then .forest else .hills
    else if moisture < 3/10 then .desert
    else if moisture > 3/5 then .forest
    else .hills
  else
    if temperature < -(7/10) then .ice
    else if temperature < -(3/10) then .tundra
    else if temperature < 3/10 then
      if moisture < 1/5 then .plains
      else if moisture < 1/2 then .plains
      else if moisture < 4/5 then .forest
      else .swamp
    else
      if moisture < 1/5 then .desert
      else if moisture < 2/5 then .savanna
      else if moisture < 7/10 then .savanna
      else if moisture < 9/10 then .jungle
      else .swamp

/-- The three environmental fields sampled by `generate_terrain`.  In the
source they wrap the external `noise.pnoise2` library (a pure function of
its arguments), combined per `get_elevation`, `get_moisture` (which also
takes the elevation) and `get_temperature` (likewise), all fixed by the
generator's seed; the composite fields are abstracted here as arbitrary
pure functions, which is exactly what the source computes from `(x, y)`
once the seed is fixed. -/
structure NoiseFields where
  elevation : ℚ → ℚ → ℚ
  moisture : ℚ → ℚ → ℚ → ℚ
  temperature : ℚ → ℚ → ℚ → ℚ

/-- `generation/terrain_generator.py` `TerrainGenerator.generate_terrain`,
returning the terrain tag (the legacy `terrain_data` dict is derived from
the tag and the sampled fields).  The global `random` module's state is the
stream `rng` with cursor `pos`; each `random.random()` call reads
`rng pos` and advances the cursor, and Python's `and` short-circuits, so the
cursor only advances when the preceding conditions hold.  The `self.lakes`
append does not affect the returned tag. -/
def generate_terrain (nf : NoiseFields) (q r _s : Int) (rng : ℕ → ℚ)
    (pos : ℕ) : TerrainType × ℕ :=
  let x : ℚ := q + r * (1/2)
  let y : ℚ := r * (433/500)
  let elevation := nf.elevation x y
  let moisture := nf.moisture x y elevation
  let temperature := nf.temperature x y elevation
  let t0 := determine_terrain elevation moisture temperature
  let lakeStep : TerrainType × ℕ :=
    if 1/10 < elevation ∧ elevation < 4/10 ∧ moisture > 8/10 then
      if rng pos < 1/10 then (.lake, pos + 1) else (t0, pos + 1)
    else (t0, pos)
  let riverStep : TerrainType × ℕ :=
    if 1/20 < elevation ∧ elevation < 3/5 ∧ moisture > 3/5 then
      if rng lakeStep.2 < 1/20 then (.river, lakeStep.2 + 1)
      else (lakeStep.1, lakeStep.2 + 1)
    else (lakeStep.1, lakeStep.2)
  riverStep

/-- Noise fields placing the probed coordinate in the lake-qualifying band
(elevation 0.3, moisture 0.9, temperature 0.5): a warm wet lowland. -/
def nfLake : NoiseFields :=
  { elevation := fun _ _ => 3/10
    moisture := fun _ _ _ => 9/10
    temperature := fun _ _ _ => 1/2 }

/-- A global-PRNG stream whose first draw is 0.0 and later draws 0.5. -/
def rngLake : ℕ → ℚ := fun n => if n = 0 then 0 else 1/2

/-- C3: `generate_terrain` is not a pure function of (seed, coordinate): it
reads the global `random` module in the lake/river injection, so two
invocations with the same seed-determined noise fields and the same
coordinate (0, 0, 0) but different global PRNG states return different tags
— `lake` when the cursor is at 0 (first draw 0.0 < 0.1) and `swamp` when
the cursor is at 2 (draw 0.5 ≥ 0.1). -/
theorem C3_generate_terrain_not_deterministic :
    (generate_terrain nfLake 0 0 0 rngLake 0).1 = TerrainType.lake ∧
    (generate_terrain nfLake 0 0 0 rngLake 2).1 = TerrainType.swamp ∧
    (generate_terrain nfLake 0 0 0 rngLake 0).1 ≠
      (generate_terrain nfLake 0 0 0 rngLake 2).1 := by
  have h1 : (generate_terrain nfLake 0 0 0 rngLake 0).1 = TerrainType.lake := by
    norm_num [generate_terrain, determine_terrain, nfLake, rngLake]
  have h2 : (generate_terrain nfLake 0 0 0 rngLake 2).1 = TerrainType.swamp := by
    norm_num [generate_terrain, determine_terrain, nfLake, rngLake]
  exact ⟨h1, h2, by rw [h1, h2]; decide⟩
